import Mathlib

/-!
# Pedestrian volume disaggregation: verification of the STC ratio pipeline

Shallow embedding of `src/estimate_ratio_using_stc/utils.py`: the data-quality
filters and daily aggregation (`get_24h_count_df`), the stratified annual
average (`get_AADPT`), the true directional ratios (`get_true_ratio`), the
short-term-count extraction (`get_8h_count_df`), the ratio-error sampler
(`get_ratio_errors`) and the confidence summary (`get_confidence_interval`).

Numeric columns are embedded as rationals (exact arithmetic for sums, counts
and divisions); `get_confidence_interval` additionally uses real square roots.
Dates are abstracted to the three projections the code reads from the datetime
index: calendar month, day of week, and an identifier distinguishing calendar
days.  A pandas frame indexed by day becomes a list of rows; `resample('D')`
becomes grouping by date (the source's resample also materialises gap days
with zero sums and a zero sample count, which the daily filters then remove,
so grouping over the days present is observationally the same downstream).
-/


/-- A calendar day, abstracted to what the pipeline reads off the datetime
index: its month, its day of week, and an identity distinguishing days that
share both. -/
structure Date where
  month : ℕ
  dayofweek : ℕ
  ident : ℕ
deriving DecidableEq, Repr

/-- One sub-daily sensor observation (a row of the raw table): intersection
name, timestamp (date plus hour of day), four directional pedestrian counts
and the vehicle volume. -/
structure CountRecord where
  name : String
  date : Date
  hour : ℕ
  ped_N : ℚ
  ped_S : ℚ
  ped_W : ℚ
  ped_E : ℚ
  vol_vehicle : ℚ
deriving DecidableEq, Repr

/-- A row of the daily frame built by `get_24h_count_df`: per-direction sums
(later rescaled), vehicle volume, and the number of sub-daily records that
fell on the day (`num_valid_counts`). -/
structure DailyRow where
  date : Date
  ped_N : ℚ
  ped_S : ℚ
  ped_W : ℚ
  ped_E : ℚ
  vol_vehicle : ℚ
  num_valid_counts : ℕ
deriving DecidableEq, Repr

/-- Filter F1 (utils.py line 127): all five counted quantities are exactly
zero. -/
def F1 (r : CountRecord) : Bool :=
  decide (r.ped_N = 0 ∧ r.ped_S = 0 ∧ r.ped_W = 0 ∧ r.ped_E = 0 ∧ r.vol_vehicle = 0)

/-- Filter F2 (utils.py line 131): some directional 15-minute count exceeds
the sub-daily hard cap `H15`. -/
def F2 (H15 : ℚ) (r : CountRecord) : Bool :=
  decide (r.ped_N > H15 ∨ r.ped_S > H15 ∨ r.ped_W > H15 ∨ r.ped_E > H15)

/-- Filter F4 (utils.py line 149): some adjusted daily directional volume
exceeds the daily hard cap `H24`. -/
def F4 (H24 : ℚ) (row : DailyRow) : Bool :=
  decide (row.ped_N > H24 ∨ row.ped_S > H24 ∨ row.ped_W > H24 ∨ row.ped_E > H24)

/-- Sum of a numeric column over a list of rows. -/
def sumBy (f : α → ℚ) (l : List α) : ℚ :=
  (l.map f).sum

/-- Embeds the pandas `unique()` used on index projections: the distinct
values in order of first appearance. -/
def unique [DecidableEq α] (l : List α) : List α :=
  l.foldl (fun acc x => if x ∈ acc then acc else acc ++ [x]) []

/-- Embeds the daily resample-and-sum of line 136 together with the per-day
record count of line 137: group the sub-daily records by calendar day, sum
each numeric column, and record how many sub-daily records the day holds. -/
def resampleDailySum (rs : List CountRecord) : List DailyRow :=
  (unique (rs.map (·.date))).map (fun d =>
    let sub := rs.filter (fun r => decide (r.date = d))
    { date := d
      ped_N := sumBy (·.ped_N) sub
      ped_S := sumBy (·.ped_S) sub
      ped_W := sumBy (·.ped_W) sub
      ped_E := sumBy (·.ped_E) sub
      vol_vehicle := sumBy (·.vol_vehicle) sub
      num_valid_counts := sub.length })

/-- Embeds `get_24h_count_df` (utils.py lines 94-158).  The F1/F2 flags are
computed and a filtered frame is built on line 135, but line 136 immediately
rebinds `df_int_24h` to a resample of the unfiltered `df_int`; the embedding
mirrors that shadowing exactly.  Afterwards each directional daily sum is
rescaled by `96 / num_valid_counts`, days failing F3
(`num_valid_counts < T24`) or F4 (some adjusted volume above `H24`) are
dropped, and the rest are returned.  (The pandas resample also materialises
calendar days with no records at all, with zero sums and a zero
`num_valid_counts`; for `T24 > 0` rule F3 removes exactly those rows, so
grouping over the days present is observationally the same.) -/
def get_24h_count_df (data : List CountRecord) (intersection_name : String)
    (H15 H24 T24 : ℚ) : List DailyRow :=
  let df_int := data.filter (fun r => decide (r.name = intersection_name))
  let df_int_24h := resampleDailySum (df_int.filter (fun r => !(F1 r) && !(F2 H15 r)))
  let df_int_24h := resampleDailySum df_int
  let adjusted := df_int_24h.map (fun row =>
    { row with
      ped_N := row.ped_N / (row.num_valid_counts : ℚ) * 96
      ped_S := row.ped_S / (row.num_valid_counts : ℚ) * 96
      ped_W := row.ped_W / (row.num_valid_counts : ℚ) * 96
      ped_E := row.ped_E / (row.num_valid_counts : ℚ) * 96 })
  adjusted.filter (fun row =>
    !(decide ((row.num_valid_counts : ℚ) < T24)) && !(F4 H24 row))

/-- A well-behaved sub-daily record: every direction carries one pedestrian. -/
def c1good : CountRecord :=
  { name := "A", date := ⟨10, 1, 0⟩, hour := 8
    ped_N := 1, ped_S := 1, ped_W := 1, ped_E := 1, vol_vehicle := 1 }

/-- A sub-daily record whose north count 101 exceeds the default hard cap
`H15 = 100`, on the same day as `c1good`. -/
def c1bad : CountRecord :=
  { name := "A", date := ⟨10, 1, 0⟩, hour := 9
    ped_N := 101, ped_S := 1, ped_W := 1, ped_E := 1, vol_vehicle := 1 }

/-- Embeds `get_AADPT` (utils.py lines 161-190): three-level stratified
average over the globally distinct months and days of week of the valid daily
frame; a (month, weekday) stratum with no valid day is skipped.  The column of
interest is passed as a projection out of the row. -/
def get_AADPT (df_int_24h : List DailyRow) (count_col : DailyRow → ℚ) : ℚ :=
  let months := unique (df_int_24h.map (·.date.month))
  let dayofweeks := unique (df_int_24h.map (·.date.dayofweek))
  let n_j : ℚ := months.length
  let n_jm : ℚ := dayofweeks.length
  (months.map (fun m =>
    (dayofweeks.map (fun d =>
      let volumes := (df_int_24h.filter
        (fun r => decide (r.date.month = m ∧ r.date.dayofweek = d))).map count_col
      let sum_V_jmdi := volumes.sum
      let n_jmd := volumes.length
      if n_jmd ≠ 0 then 1 / n_j * (1 / n_jm) * (1 / (n_jmd : ℚ)) * sum_V_jmdi
      else 0)).sum)).sum

/-- The stratified-average formula as the specification states it:
`(1/n_months) * Σ_month [ (1/n_weekdays_present_overall) * Σ_weekday [ mean
volume of the (month, weekday) stratum ] ]`, with the two outer counts taken
once over all the valid data and empty strata skipped.  Written from the
words of the spec, to be compared with `get_AADPT`. -/
def AADPT_specFormula (df : List DailyRow) (count_col : DailyRow → ℚ) : ℚ :=
  let months := unique (df.map (·.date.month))
  let dayofweeks := unique (df.map (·.date.dayofweek))
  (1 / (months.length : ℚ)) *
    (months.map (fun m =>
      (1 / (dayofweeks.length : ℚ)) *
        (dayofweeks.map (fun d =>
          let volumes := (df.filter
            (fun r => decide (r.date.month = m ∧ r.date.dayofweek = d))).map count_col
          if volumes.length ≠ 0 then volumes.sum / (volumes.length : ℚ)
          else 0)).sum)).sum

/-- The outcome of `get_true_ratio` (utils.py lines 192-225), with the fields
named after the source variables making up the returned tuple. -/
structure TrueRatioResult where
  AADPT_tot : ℚ
  ratio_N_true : ℚ
  ratio_S_true : ℚ
  ratio_W_true : ℚ
  ratio_E_true : ℚ
deriving DecidableEq, Repr

/-- Embeds `get_true_ratio`: the four per-direction AADPT values, their total,
and each ratio of direction to total, defined as 0 when the total is 0. -/
def get_true_ratio (df_int_24h : List DailyRow) : TrueRatioResult :=
  let AADPT_N := get_AADPT df_int_24h (·.ped_N)
  let AADPT_S := get_AADPT df_int_24h (·.ped_S)
  let AADPT_W := get_AADPT df_int_24h (·.ped_W)
  let AADPT_E := get_AADPT df_int_24h (·.ped_E)
  let AADPT_tot := AADPT_N + AADPT_S + AADPT_W + AADPT_E
  { AADPT_tot := AADPT_tot
    ratio_N_true := if AADPT_tot = 0 then 0 else AADPT_N / AADPT_tot
    ratio_S_true := if AADPT_tot = 0 then 0 else AADPT_S / AADPT_tot
    ratio_W_true := if AADPT_tot = 0 then 0 else AADPT_W / AADPT_tot
    ratio_E_true := if AADPT_tot = 0 then 0 else AADPT_E / AADPT_tot }

/-- A concrete valid daily row used to instantiate the ratio invariant. -/
def c4row : DailyRow :=
  { date := ⟨10, 1, 0⟩, ped_N := 2, ped_S := 1, ped_W := 1, ped_E := 0
    vol_vehicle := 5, num_valid_counts := 96 }

/-- A row of the hourly resample inside `get_8h_count_df`: one (day, hour)
cell with each numeric column summed. -/
structure HourRow where
  date : Date
  hour : ℕ
  ped_N : ℚ
  ped_S : ℚ
  ped_W : ℚ
  ped_E : ℚ
  vol_vehicle : ℚ
deriving DecidableEq, Repr

/-- Embeds the hourly resample-and-sum of line 254: group the records by
(day, hour) and sum each numeric column. -/
def resampleHourlySum (rs : List CountRecord) : List HourRow :=
  (unique (rs.map (fun r => (r.date, r.hour)))).map (fun k =>
    let sub := rs.filter (fun r => decide (r.date = k.1 ∧ r.hour = k.2))
    { date := k.1
      hour := k.2
      ped_N := sumBy (·.ped_N) sub
      ped_S := sumBy (·.ped_S) sub
      ped_W := sumBy (·.ped_W) sub
      ped_E := sumBy (·.ped_E) sub
      vol_vehicle := sumBy (·.vol_vehicle) sub })

/-- Embeds `between_time` on the hourly frame: keep the rows whose hour lies
in the inclusive window `[a, b]`. -/
def betweenTime (a b : ℕ) (rows : List HourRow) : List HourRow :=
  rows.filter (fun r => decide (a ≤ r.hour ∧ r.hour ≤ b))

/-- A daily row of the short-term-count frame before the `total` column is
added. -/
structure Day8Row where
  date : Date
  ped_N : ℚ
  ped_S : ℚ
  ped_W : ℚ
  ped_E : ℚ
  vol_vehicle : ℚ
deriving DecidableEq, Repr

/-- A daily row of the short-term-count frame once line 272 has added the
`total` column. -/
structure STCRow where
  date : Date
  ped_N : ℚ
  ped_S : ℚ
  ped_W : ℚ
  ped_E : ℚ
  vol_vehicle : ℚ
  total : ℚ
deriving DecidableEq, Repr

/-- Embeds the daily resample-and-sum of line 262 over the window-restricted
hourly rows. -/
def resampleDaily8Sum (rows : List HourRow) : List Day8Row :=
  (unique (rows.map (·.date))).map (fun d =>
    let sub := rows.filter (fun r => decide (r.date = d))
    { date := d
      ped_N := sumBy (·.ped_N) sub
      ped_S := sumBy (·.ped_S) sub
      ped_W := sumBy (·.ped_W) sub
      ped_E := sumBy (·.ped_E) sub
      vol_vehicle := sumBy (·.vol_vehicle) sub })

/-- Line 272: `total` is the sum of the four directional columns. -/
def addTotal (r : Day8Row) : STCRow :=
  { date := r.date, ped_N := r.ped_N, ped_S := r.ped_S, ped_W := r.ped_W
    ped_E := r.ped_E, vol_vehicle := r.vol_vehicle
    total := r.ped_N + r.ped_S + r.ped_W + r.ped_E }

/-- Embeds `get_8h_count_df` (utils.py lines 228-282): hourly resample, the
three representative windows 7-9, 11-14 and 15-18 (inclusive, as
`between_time` slices of the hourly frame), daily resample, the
weekday/month eligibility filter, holiday exclusion, the `total` column, and
the drop of zero-total days. -/
def get_8h_count_df (data : List CountRecord) (intersection_name : String)
    (holidays : List Date) : List STCRow :=
  let df_int := data.filter (fun r => decide (r.name = intersection_name))
  let df_int_stc_h := resampleHourlySum df_int
  let df_int_h_valid := betweenTime 7 9 df_int_stc_h ++ betweenTime 11 14 df_int_stc_h ++
    betweenTime 15 18 df_int_stc_h
  let df_int_8h := resampleDaily8Sum df_int_h_valid
  let df_int_8h := df_int_8h.filter (fun r =>
    decide (r.date.dayofweek ∈ [1, 2, 3]) && decide (r.date.month ∈ [4, 5, 6, 9, 10, 11]))
  let df_int_8h := df_int_8h.filter (fun r => decide (r.date ∉ holidays))
  let withTotal := df_int_8h.map addTotal
  withTotal.filter (fun r => decide (¬r.total = 0))

/-- One eligible sub-daily record: month 4 (April), weekday 2 (Wednesday),
hour 8, one pedestrian per direction. -/
def c7rec : CountRecord :=
  { name := "A", date := ⟨4, 2, 0⟩, hour := 8
    ped_N := 1, ped_S := 1, ped_W := 1, ped_E := 1, vol_vehicle := 0 }

/-- A holiday date distinct from the date of `c7rec`. -/
def c7hol : Date := ⟨4, 2, 1⟩

/-- The short-term-count row that `c7rec` produces. -/
def c7out : STCRow :=
  { date := ⟨4, 2, 0⟩, ped_N := 1, ped_S := 1, ped_W := 1, ped_E := 1
    vol_vehicle := 0, total := 4 }

/-- One row of the error table `get_ratio_errors` builds, with the five
columns of the source frame. -/
structure ErrorRow where
  ratio_N_errs : ℚ
  ratio_S_errs : ℚ
  ratio_W_errs : ℚ
  ratio_E_errs : ℚ
  ratio_avg_errs : ℚ
deriving DecidableEq, Repr

/-- Drawing `n` distinct rows: at each step the underlying generator selects
one position among the rows still available (the choice stream `picks` makes
the hidden NumPy global state explicit) and the chosen row leaves the pool,
so the draw is without replacement. -/
def pickSample : ℕ → List ℕ → List STCRow → List STCRow
  | 0, _, _ => []
  | n + 1, ps, rows =>
    match rows.drop (ps.headD 0 % rows.length) with
    | [] => []
    | x :: _ => x :: pickSample n ps.tail (rows.eraseIdx (ps.headD 0 % rows.length))

/-- Embeds `df.sample(n=stc_num, replace=False)` (utils.py line 351): when
`n` exceeds the population, pandas raises
`ValueError: Cannot take a larger sample than population when replace is
False`; otherwise `n` distinct rows are drawn, driven by the global NumPy
generator state, which the embedding exposes as the explicit stream
`picks`. -/
def sampleWithoutReplacement (rows : List STCRow) (n : ℕ) (picks : List ℕ) :
    Except String (List STCRow) :=
  if rows.length < n then
    .error "Cannot take a larger sample than population when replace is False"
  else
    .ok (pickSample n picks rows)

/-- Embeds `get_ratio_errors` (utils.py lines 286-378).  For `stc_num = 1`
every eligible day is evaluated deterministically; note lines 333-334, where
the averaged error double-counts the north error and omits the south one.
For any other `stc_num` the function runs `repeat_count` trials, each drawing
`stc_num` eligible days without replacement (consuming one entry of the
generator stream `rng` per trial, with the replicated unary plus of line 356
dropped as it does not change the value), and a raised sampling error aborts
the whole call as the Python exception does. -/
def get_ratio_errors (df_int_8h : List STCRow) (df_int_24h : List DailyRow)
    (stc_num : ℕ) (repeat_count : ℕ) (rng : List (List ℕ)) :
    Except String (List ErrorRow) :=
  let t := get_true_ratio df_int_24h
  if stc_num = 1 then
    .ok (df_int_8h.map (fun r =>
      let ratio_N := r.ped_N / r.total
      let ratio_S := r.ped_S / r.total
      let ratio_W := r.ped_W / r.total
      let ratio_E := r.ped_E / r.total
      let ratio_N_err := (ratio_N - t.ratio_N_true) / (t.ratio_N_true + 1 / 10000)
      let ratio_S_err := (ratio_S - t.ratio_S_true) / (t.ratio_S_true + 1 / 10000)
      let ratio_W_err := (ratio_W - t.ratio_W_true) / (t.ratio_W_true + 1 / 10000)
      let ratio_E_err := (ratio_E - t.ratio_E_true) / (t.ratio_E_true + 1 / 10000)
      let ratio_avg_err := 1 / 4 *
        (|ratio_E_err| + |ratio_W_err| + |ratio_N_err| + |ratio_N_err|)
      { ratio_N_errs := ratio_N_err, ratio_S_errs := ratio_S_err
        ratio_W_errs := ratio_W_err, ratio_E_errs := ratio_E_err
        ratio_avg_errs := ratio_avg_err }))
  else
    (List.range repeat_count).foldlM (fun acc i => do
      let sample_stc ← sampleWithoutReplacement df_int_8h stc_num ((rng.get? i).getD [])
      let sum_N := sumBy (·.ped_N) sample_stc
      let sum_S := sumBy (·.ped_S) sample_stc
      let sum_W := sumBy (·.ped_W) sample_stc
      let sum_E := sumBy (·.ped_E) sample_stc
      let sum_total := sumBy (·.total) sample_stc
      let ratio_N_err := (sum_N / sum_total - t.ratio_N_true) / (t.ratio_N_true + 1 / 10000)
      let ratio_S_err := (sum_S / sum_total - t.ratio_S_true) / (t.ratio_S_true + 1 / 10000)
      let ratio_W_err := (sum_W / sum_total - t.ratio_W_true) / (t.ratio_W_true + 1 / 10000)
      let ratio_E_err := (sum_E / sum_total - t.ratio_E_true) / (t.ratio_E_true + 1 / 10000)
      let ratio_avg_err := 1 / 4 *
        (|ratio_N_err| + |ratio_S_err| + |ratio_W_err| + |ratio_E_err|)
      let row : ErrorRow :=
        { ratio_N_errs := ratio_N_err, ratio_S_errs := ratio_S_err
          ratio_W_errs := ratio_W_err, ratio_E_errs := ratio_E_err
          ratio_avg_errs := ratio_avg_err }
      pure (acc ++ [row])) []

/-- A one-day daily table in which all traffic crosses north: the true ratios
it induces are (1, 0, 0, 0). -/
def c2daily : DailyRow :=
  { date := ⟨10, 1, 0⟩, ped_N := 1, ped_S := 0, ped_W := 0, ped_E := 0
    vol_vehicle := 0, num_valid_counts := 96 }

/-- A short-term day with equal directional counts, on which the north and
south relative errors differ. -/
def c2stc : STCRow :=
  { date := ⟨4, 2, 0⟩, ped_N := 1, ped_S := 1, ped_W := 1, ped_E := 1
    vol_vehicle := 0, total := 4 }

/-- A first short-term day for the resampling experiment. -/
def c3a : STCRow :=
  { date := ⟨4, 2, 10⟩, ped_N := 1, ped_S := 1, ped_W := 1, ped_E := 1
    vol_vehicle := 0, total := 4 }

/-- A second short-term day, equal in counts to `c3a`, on another date. -/
def c3b : STCRow :=
  { date := ⟨4, 2, 11⟩, ped_N := 1, ped_S := 1, ped_W := 1, ped_E := 1
    vol_vehicle := 0, total := 4 }

/-- A third short-term day with a different directional split. -/
def c3c : STCRow :=
  { date := ⟨4, 2, 12⟩, ped_N := 5, ped_S := 1, ped_W := 1, ped_E := 1
    vol_vehicle := 0, total := 8 }

/-- Embeds `np.mean`. -/
def npMean (errs : List ℚ) : ℚ :=
  errs.sum / errs.length

/-- Embeds `np.std`: the population standard deviation (`ddof = 0`), the
square root of the mean squared deviation from the mean. -/
noncomputable def npStd (errs : List ℚ) : ℝ :=
  Real.sqrt (((errs.map (fun x => (x - npMean errs) ^ 2)).sum / errs.length : ℚ))

/-- Embeds `np.percentile` with its default linear interpolation between the
two order statistics around the fractional position `p/100 * (n - 1)`. -/
def npPercentile (errs : List ℚ) (p : ℚ) : ℚ :=
  let s := errs.mergeSort (fun a b => decide (a ≤ b))
  let pos : ℚ := p / 100 * ((errs.length : ℚ) - 1)
  let lo := s.getD (Int.toNat ⌊pos⌋) 0
  let hi := s.getD (Int.toNat ⌈pos⌉) 0
  lo + (pos - (⌊pos⌋ : ℚ)) * (hi - lo)

open Classical in
/-- Python rounding of a real to the nearest integer, ties going to the even
neighbour. -/
noncomputable def pyRound (x : ℝ) : ℤ :=
  if x + 1 / 2 = (⌊x + 1 / 2⌋ : ℝ) ∧ Odd ⌊x + 1 / 2⌋ then ⌊x + 1 / 2⌋ - 1
  else ⌊x + 1 / 2⌋

/-- Python `round(x, 3)`: round to three decimal places. -/
noncomputable def round3 (x : ℝ) : ℝ :=
  (pyRound (x * 1000) : ℝ) / 1000

/-- Embeds `get_confidence_interval` (utils.py lines 381-410): mean,
population standard deviation, the fixed multiplier `Zstar = 1.65`, the
empirical percentile, and the final rounding of all four values to three
decimal places. -/
noncomputable def get_confidence_interval (errs : List ℚ) (percentile : ℚ) :
    ℝ × ℝ × ℝ × ℝ :=
  let mean := npMean errs
  let sd := npStd errs
  let Zstar : ℝ := 1.65
  let lcb := (mean : ℝ) - Zstar * sd
  let ucb := (mean : ℝ) + Zstar * sd
  let nth_percentile := npPercentile errs percentile
  (round3 lcb, round3 (mean : ℝ), round3 ucb, round3 (nth_percentile : ℝ))

/-- Factoring two constants out of one stratum sum: the inner step of
comparing `get_AADPT` with the formula the specification states. -/
lemma inner_sum_factor (D : List ℕ) (nj nd : ℚ) (S : ℕ → ℚ) (C : ℕ → ℕ) :
    (D.map (fun d =>
        if C d ≠ 0 then 1 / nj * (1 / nd) * (1 / (C d : ℚ)) * S d
        else 0)).sum =
      1 / nj * (1 / nd * (D.map (fun d =>
        if C d ≠ 0 then S d / (C d : ℚ) else 0)).sum) := by
  induction D with
  | nil => simp
  | cons d D ihD =>
    simp only [List.map_cons, List.sum_cons, ihD, mul_add]
    congr 1
    by_cases h : C d = 0
    · simp [h]
    · simp only [h, ne_eq, not_false_eq_true, if_true, ite_true]
      field_simp
      ring

/-- Factoring two constants out of the nested stratum sums: the shape shared
by `get_AADPT` (constants inside every stratum term) and `AADPT_specFormula`
(constants factored out of the sums). -/
lemma nested_sum_factor (M D : List ℕ) (nj nd : ℚ) (S : ℕ → ℕ → ℚ) (C : ℕ → ℕ → ℕ) :
    (M.map (fun m => (D.map (fun d =>
        if C m d ≠ 0 then 1 / nj * (1 / nd) * (1 / (C m d : ℚ)) * S m d
        else 0)).sum)).sum =
      (1 / nj) * (M.map (fun m => (1 / nd) * (D.map (fun d =>
        if C m d ≠ 0 then S m d / (C m d : ℚ) else 0)).sum)).sum := by
  induction M with
  | nil => simp
  | cons m M ihM =>
    simp only [List.map_cons, List.sum_cons, ihM, mul_add]
    congr 1
    exact inner_sum_factor D nj nd (S m) (C m)

/-- A nonnegative column yields a nonnegative stratified average. -/
lemma get_AADPT_nonneg (df : List DailyRow) (count_col : DailyRow → ℚ)
    (h : ∀ r ∈ df, 0 ≤ count_col r) : 0 ≤ get_AADPT df count_col := by
  unfold get_AADPT
  apply List.sum_nonneg
  intro x hx
  obtain ⟨m, _, rfl⟩ := List.mem_map.1 hx
  apply List.sum_nonneg
  intro y hy
  obtain ⟨d, _, rfl⟩ := List.mem_map.1 hy
  dsimp only
  split
  · apply mul_nonneg
    · apply mul_nonneg (mul_nonneg _ _)
      · exact one_div_nonneg.2 (Nat.cast_nonneg _)
      · exact one_div_nonneg.2 (Nat.cast_nonneg _)
      · exact one_div_nonneg.2 (Nat.cast_nonneg _)
    · apply List.sum_nonneg
      intro v hv
      obtain ⟨r, hr, rfl⟩ := List.mem_map.1 hv
      exact h r (List.mem_of_mem_filter hr)
  · exact le_refl 0

/-- C5: `get_AADPT` computes exactly the three-level stratified average of
the specification, with the month and weekday counts taken once over all the
valid data, empty (month, weekday) strata skipped rather than counted as
zero, and an empty input yielding 0. -/
theorem get_AADPT_eq_stratified_formula (df : List DailyRow) (count_col : DailyRow → ℚ) :
    get_AADPT df count_col = AADPT_specFormula df count_col ∧
      get_AADPT ([] : List DailyRow) count_col = 0 := by
  constructor
  · simp only [get_AADPT, AADPT_specFormula]
    exact nested_sum_factor _ _ _ _
      (fun m d => ((df.filter
        (fun r => decide (r.date.month = m ∧ r.date.dayofweek = d))).map count_col).sum)
      (fun m d => ((df.filter
        (fun r => decide (r.date.month = m ∧ r.date.dayofweek = d))).map count_col).length)
  · rfl

/-- C4: for every valid daily-volume table with non-negative volumes,
`get_true_ratio` returns four non-negative ratios; when the total AADPT is
non-zero they sum to exactly 1, and when the total AADPT is exactly 0 all four
ratios equal 0 (no undefined value is produced). -/
theorem true_ratio_nonneg_sum_one (df : List DailyRow)
    (hN : ∀ r ∈ df, 0 ≤ r.ped_N) (hS : ∀ r ∈ df, 0 ≤ r.ped_S)
    (hW : ∀ r ∈ df, 0 ≤ r.ped_W) (hE : ∀ r ∈ df, 0 ≤ r.ped_E) :
    0 ≤ (get_true_ratio df).ratio_N_true ∧ 0 ≤ (get_true_ratio df).ratio_S_true ∧
    0 ≤ (get_true_ratio df).ratio_W_true ∧ 0 ≤ (get_true_ratio df).ratio_E_true ∧
    ((get_true_ratio df).AADPT_tot ≠ 0 →
      (get_true_ratio df).ratio_N_true + (get_true_ratio df).ratio_S_true +
        (get_true_ratio df).ratio_W_true + (get_true_ratio df).ratio_E_true = 1) ∧
    ((get_true_ratio df).AADPT_tot = 0 →
      (get_true_ratio df).ratio_N_true = 0 ∧ (get_true_ratio df).ratio_S_true = 0 ∧
        (get_true_ratio df).ratio_W_true = 0 ∧ (get_true_ratio df).ratio_E_true = 0) := by
  have aN := get_AADPT_nonneg df (fun r => r.ped_N) hN
  have aS := get_AADPT_nonneg df (fun r => r.ped_S) hS
  have aW := get_AADPT_nonneg df (fun r => r.ped_W) hW
  have aE := get_AADPT_nonneg df (fun r => r.ped_E) hE
  simp only [get_true_ratio]
  by_cases htot : get_AADPT df (fun r => r.ped_N) + get_AADPT df (fun r => r.ped_S) +
      get_AADPT df (fun r => r.ped_W) + get_AADPT df (fun r => r.ped_E) = 0
  · simp [htot]
  · have h0 : 0 ≤ get_AADPT df (fun r => r.ped_N) + get_AADPT df (fun r => r.ped_S) +
        get_AADPT df (fun r => r.ped_W) + get_AADPT df (fun r => r.ped_E) :=
      add_nonneg (add_nonneg (add_nonneg aN aS) aW) aE
    simp only [htot, if_false, ite_false]
    refine ⟨div_nonneg aN h0, div_nonneg aS h0, div_nonneg aW h0, div_nonneg aE h0,
      fun _ => ?_, fun hc => hc.elim⟩
    rw [div_add_div_same, div_add_div_same, div_add_div_same, div_self htot]

/-- Witness for C4 at the one-day table `[c4row]`. -/
theorem true_ratio_nonneg_sum_one_witness :
    (∀ r ∈ [c4row], 0 ≤ r.ped_N) ∧ (∀ r ∈ [c4row], 0 ≤ r.ped_S) ∧
    (∀ r ∈ [c4row], 0 ≤ r.ped_W) ∧ (∀ r ∈ [c4row], 0 ≤ r.ped_E) ∧
    (0 ≤ (get_true_ratio [c4row]).ratio_N_true ∧
      0 ≤ (get_true_ratio [c4row]).ratio_S_true ∧
      0 ≤ (get_true_ratio [c4row]).ratio_W_true ∧
      0 ≤ (get_true_ratio [c4row]).ratio_E_true ∧
      ((get_true_ratio [c4row]).AADPT_tot ≠ 0 →
        (get_true_ratio [c4row]).ratio_N_true + (get_true_ratio [c4row]).ratio_S_true +
          (get_true_ratio [c4row]).ratio_W_true + (get_true_ratio [c4row]).ratio_E_true = 1) ∧
      ((get_true_ratio [c4row]).AADPT_tot = 0 →
        (get_true_ratio [c4row]).ratio_N_true = 0 ∧
          (get_true_ratio [c4row]).ratio_S_true = 0 ∧
          (get_true_ratio [c4row]).ratio_W_true = 0 ∧
          (get_true_ratio [c4row]).ratio_E_true = 0)) :=
  ⟨by norm_num [c4row], by norm_num [c4row], by norm_num [c4row], by norm_num [c4row],
    true_ratio_nonneg_sum_one [c4row] (by norm_num [c4row]) (by norm_num [c4row])
      (by norm_num [c4row]) (by norm_num [c4row])⟩

/-- C1 (evaluation): an F2-flagged record (north count 101 above the cap
`H15 = 100`) is NOT excluded before daily aggregation: with it present, the
retained day has adjusted north volume 4896 and `num_valid_counts = 2`;
without it, 96 and 1.  The filtered frame of line 135 is discarded by the
rebinding on line 136, so F1/F2 records do contribute to the daily sums and
to `num_valid_counts`. -/
theorem hard_cap_record_reaches_daily_volume :
    F2 100 c1bad = true ∧
    (get_24h_count_df [c1good, c1bad] "A" 100 10000 1).map
        (fun r => (r.ped_N, r.num_valid_counts)) = [(4896, 2)] ∧
    (get_24h_count_df [c1good] "A" 100 10000 1).map
        (fun r => (r.ped_N, r.num_valid_counts)) = [(96, 1)] := by
  norm_num [get_24h_count_df, resampleDailySum, sumBy, unique, F1, F2, F4, c1good, c1bad,
    List.filter, List.foldl]

/-- Column sums over rows with nonnegative column values are nonnegative. -/
lemma sumBy_nonneg (f : α → ℚ) (l : List α) (h : ∀ x ∈ l, 0 ≤ f x) :
    0 ≤ sumBy f l := by
  apply List.sum_nonneg
  intro x hx
  obtain ⟨a, ha, rfl⟩ := List.mem_map.1 hx
  exact h a ha

/-- Hourly aggregation preserves nonnegativity of the four directional
columns. -/
lemma resampleHourlySum_nonneg (rs : List CountRecord)
    (h : ∀ rec ∈ rs, 0 ≤ rec.ped_N ∧ 0 ≤ rec.ped_S ∧ 0 ≤ rec.ped_W ∧ 0 ≤ rec.ped_E) :
    ∀ hr ∈ resampleHourlySum rs,
      0 ≤ hr.ped_N ∧ 0 ≤ hr.ped_S ∧ 0 ≤ hr.ped_W ∧ 0 ≤ hr.ped_E := by
  intro hrow hmem
  obtain ⟨k, -, rfl⟩ := List.mem_map.1 hmem
  exact ⟨sumBy_nonneg _ _ (fun x hx => (h x (List.mem_of_mem_filter hx)).1),
    sumBy_nonneg _ _ (fun x hx => (h x (List.mem_of_mem_filter hx)).2.1),
    sumBy_nonneg _ _ (fun x hx => (h x (List.mem_of_mem_filter hx)).2.2.1),
    sumBy_nonneg _ _ (fun x hx => (h x (List.mem_of_mem_filter hx)).2.2.2)⟩

/-- Daily aggregation of the window-restricted hourly rows preserves
nonnegativity of the four directional columns. -/
lemma resampleDaily8Sum_nonneg (rows : List HourRow)
    (h : ∀ hr ∈ rows, 0 ≤ hr.ped_N ∧ 0 ≤ hr.ped_S ∧ 0 ≤ hr.ped_W ∧ 0 ≤ hr.ped_E) :
    ∀ r ∈ resampleDaily8Sum rows,
      0 ≤ r.ped_N ∧ 0 ≤ r.ped_S ∧ 0 ≤ r.ped_W ∧ 0 ≤ r.ped_E := by
  intro row hmem
  obtain ⟨d, -, rfl⟩ := List.mem_map.1 hmem
  exact ⟨sumBy_nonneg _ _ (fun x hx => (h x (List.mem_of_mem_filter hx)).1),
    sumBy_nonneg _ _ (fun x hx => (h x (List.mem_of_mem_filter hx)).2.1),
    sumBy_nonneg _ _ (fun x hx => (h x (List.mem_of_mem_filter hx)).2.2.1),
    sumBy_nonneg _ _ (fun x hx => (h x (List.mem_of_mem_filter hx)).2.2.2)⟩

/-- C7: no day whose date is in the holiday list ever appears in the output
of `get_8h_count_df`, whatever its weekday and month are. -/
theorem stc_excludes_holidays (data : List CountRecord) (intersection_name : String)
    (holidays : List Date) (r : STCRow)
    (hr : r ∈ get_8h_count_df data intersection_name holidays) : r.date ∉ holidays := by
  simp only [get_8h_count_df] at hr
  rw [List.mem_filter] at hr
  obtain ⟨hmem, -⟩ := hr
  obtain ⟨r8, hr8, rfl⟩ := List.mem_map.1 hmem
  rw [List.mem_filter] at hr8
  exact of_decide_eq_true hr8.2

/-- Witness for C7: the pipeline emits `c7out` on non-holiday input and that
row's date is not a holiday. -/
theorem stc_excludes_holidays_witness :
    c7out ∈ get_8h_count_df [c7rec] "A" [c7hol] ∧ c7out.date ∉ [c7hol] :=
  ⟨by norm_num [get_8h_count_df, resampleHourlySum, resampleDaily8Sum, betweenTime,
      addTotal, sumBy, unique, c7rec, c7hol, c7out, List.filter, List.foldl],
    stc_excludes_holidays [c7rec] "A" [c7hol] c7out
      (by norm_num [get_8h_count_df, resampleHourlySum, resampleDaily8Sum, betweenTime,
        addTotal, sumBy, unique, c7rec, c7hol, c7out, List.filter, List.foldl])⟩

/-- C9: with nonnegative input counts, every row returned by
`get_8h_count_df` has a strictly positive `total` (zero-total days are
dropped before returning), so the per-day ratio divisions in the `k = 1`
branch of `get_ratio_errors` always have a non-zero denominator. -/
theorem stc_total_pos (data : List CountRecord) (intersection_name : String)
    (holidays : List Date)
    (hpos : ∀ rec ∈ data, 0 ≤ rec.ped_N ∧ 0 ≤ rec.ped_S ∧ 0 ≤ rec.ped_W ∧ 0 ≤ rec.ped_E) :
    ∀ r ∈ get_8h_count_df data intersection_name holidays, 0 < r.total ∧ r.total ≠ 0 := by
  intro r hr
  simp only [get_8h_count_df] at hr
  rw [List.mem_filter] at hr
  obtain ⟨hmem, htot⟩ := hr
  have htot' : ¬r.total = 0 := of_decide_eq_true htot
  obtain ⟨r8, hr8, rfl⟩ := List.mem_map.1 hmem
  rw [List.mem_filter] at hr8
  obtain ⟨hr8, -⟩ := hr8
  rw [List.mem_filter] at hr8
  obtain ⟨hr8, -⟩ := hr8
  have hhour := resampleHourlySum_nonneg
    (data.filter (fun rec => decide (rec.name = intersection_name)))
    (fun rec hrec => hpos rec (List.mem_of_mem_filter hrec))
  have hvalid : ∀ hrow ∈ betweenTime 7 9 (resampleHourlySum
        (data.filter (fun rec => decide (rec.name = intersection_name)))) ++
        betweenTime 11 14 (resampleHourlySum
        (data.filter (fun rec => decide (rec.name = intersection_name)))) ++
        betweenTime 15 18 (resampleHourlySum
        (data.filter (fun rec => decide (rec.name = intersection_name)))),
      0 ≤ hrow.ped_N ∧ 0 ≤ hrow.ped_S ∧ 0 ≤ hrow.ped_W ∧ 0 ≤ hrow.ped_E := by
    intro hrow hmem2
    rcases List.mem_append.1 hmem2 with h12 | h3
    · rcases List.mem_append.1 h12 with h1 | h2
      · exact hhour hrow (List.mem_of_mem_filter h1)
      · exact hhour hrow (List.mem_of_mem_filter h2)
    · exact hhour hrow (List.mem_of_mem_filter h3)
  have hday := resampleDaily8Sum_nonneg _ hvalid r8 hr8
  have h0 : 0 ≤ (addTotal r8).total :=
    add_nonneg (add_nonneg (add_nonneg hday.1 hday.2.1) hday.2.2.1) hday.2.2.2
  exact ⟨lt_of_le_of_ne h0 (Ne.symm htot'), htot'⟩

/-- Witness for C9 at the single eligible record `c7rec` with no holidays. -/
theorem stc_total_pos_witness :
    (∀ rec ∈ [c7rec], 0 ≤ rec.ped_N ∧ 0 ≤ rec.ped_S ∧ 0 ≤ rec.ped_W ∧ 0 ≤ rec.ped_E) ∧
    (0 < c7out.total ∧ c7out.total ≠ 0) :=
  ⟨by norm_num [c7rec],
    stc_total_pos [c7rec] "A" [] (by norm_num [c7rec]) c7out
      (by norm_num [get_8h_count_df, resampleHourlySum, resampleDaily8Sum, betweenTime,
        addTotal, sumBy, unique, c7rec, c7out, List.filter, List.foldl])⟩

/-- The one-day table `[c2daily]` induces true ratios (1, 0, 0, 0). -/
lemma c2daily_true_ratios :
    (get_true_ratio [c2daily]).ratio_N_true = 1 ∧
    (get_true_ratio [c2daily]).ratio_S_true = 0 := by
  norm_num [get_true_ratio, get_AADPT, unique, c2daily, List.filter, List.foldl]

/-- C2 (evaluation): on a concrete eligible day with `stc_num = 1`, the
combined per-day error produced by lines 333-334 equals
`0.25 * (|E| + |W| + |N| + |N|)` and differs from the mean of the absolute
values of the four directional errors, because the north error is
double-counted and the south error is omitted. -/
theorem ratio_avg_err_double_counts_north :
    ∃ e : ErrorRow, get_ratio_errors [c2stc] [c2daily] 1 100 [] = .ok [e] ∧
      e.ratio_avg_errs =
        1 / 4 * (|e.ratio_E_errs| + |e.ratio_W_errs| + |e.ratio_N_errs| + |e.ratio_N_errs|) ∧
      e.ratio_avg_errs ≠
        1 / 4 * (|e.ratio_N_errs| + |e.ratio_S_errs| + |e.ratio_W_errs| + |e.ratio_E_errs|) := by
  have habs : |(7500 / 10001 : ℚ)| = 7500 / 10001 := abs_of_nonneg (by norm_num)
  refine ⟨{ ratio_N_errs := -7500 / 10001, ratio_S_errs := 2500, ratio_W_errs := 2500
            ratio_E_errs := 2500, ratio_avg_errs := 12505000 / 10001 }, ?_, ?_, ?_⟩
  · norm_num [get_ratio_errors, get_true_ratio, get_AADPT, unique, c2stc, c2daily,
      List.filter, List.foldl, habs]
  · rw [show |(-7500 / 10001 : ℚ)| = 7500 / 10001 by rw [abs_of_nonpos] <;> norm_num,
      show |(2500 : ℚ)| = 2500 by rw [abs_of_nonneg] <;> norm_num]
    norm_num
  · rw [show |(-7500 / 10001 : ℚ)| = 7500 / 10001 by rw [abs_of_nonpos] <;> norm_num,
      show |(2500 : ℚ)| = 2500 by rw [abs_of_nonneg] <;> norm_num]
    norm_num

/-- C3 (evaluation): with identical inputs and `stc_num = 2`, two states of
the generator stream give different error tables: the draws of line 351 read
the global NumPy state (`df.sample` is called with no `random_state`), so the
output is not a function of the inputs and an explicit seed. -/
theorem sampler_reads_global_state :
    get_ratio_errors [c3a, c3b, c3c] [c2daily] 2 1 [[0, 0]] ≠
      get_ratio_errors [c3a, c3b, c3c] [c2daily] 2 1 [[2, 0]] := by
  norm_num [get_ratio_errors, get_true_ratio, get_AADPT, unique, sampleWithoutReplacement,
    pickSample, sumBy, c3a, c3b, c3c, c2daily, List.filter, List.foldl, List.range_succ,
    List.eraseIdx, List.drop]

/-- C6 (counterexample): with 1 eligible day, `stc_num = 2` and `repeat = 0`,
the sampling loop body never runs, so `get_ratio_errors` silently returns an
empty error table instead of failing. -/
theorem insufficient_days_empty_when_no_trial :
    1 < 2 ∧ List.length [c2stc] < 2 ∧
      get_ratio_errors [c2stc] [c2daily] 2 0 [] = .ok [] := by
  refine ⟨by norm_num, by norm_num, ?_⟩
  rfl

/-- C6 (amended): with more requested days than eligible days and at least
one trial, the first call of `df.sample(n, replace=False)` raises, so
`get_ratio_errors` fails with the pandas sampling error instead of silently
sampling with replacement or returning a partial or empty result. -/
theorem insufficient_days_raises (df_int_8h : List STCRow) (df_int_24h : List DailyRow)
    (stc_num repeat_count : ℕ) (rng : List (List ℕ))
    (hk : 1 < stc_num) (hlen : df_int_8h.length < stc_num) (hR : 1 ≤ repeat_count) :
    get_ratio_errors df_int_8h df_int_24h stc_num repeat_count rng =
      .error "Cannot take a larger sample than population when replace is False" := by
  obtain ⟨R, rfl⟩ : ∃ R, repeat_count = R + 1 := ⟨repeat_count - 1, by omega⟩
  unfold get_ratio_errors
  rw [if_neg (by omega : ¬stc_num = 1), List.range_succ_eq_map, List.foldlM_cons]
  simp only [sampleWithoutReplacement, if_pos hlen]
  rfl

/-- Witness for the amended C6 at one eligible day, `stc_num = 2` and the
default `repeat = 100`. -/
theorem insufficient_days_raises_witness :
    1 < 2 ∧ List.length [c2stc] < 2 ∧ 1 ≤ 100 ∧
      get_ratio_errors [c2stc] [c2daily] 2 100 [] =
        .error "Cannot take a larger sample than population when replace is False" :=
  ⟨by norm_num, by norm_num, by norm_num,
    insufficient_days_raises [c2stc] [c2daily] 2 100 [] (by norm_num) (by norm_num)
      (by norm_num)⟩

/-- Rounding an integer off a real moves it by at most one half. -/
lemma pyRound_sub_abs_le (x : ℝ) : |(pyRound x : ℝ) - x| ≤ 1 / 2 := by
  unfold pyRound
  split
  case isTrue h =>
    obtain ⟨heq, -⟩ := h
    push_cast
    rw [← heq]
    rw [show x + 1 / 2 - 1 - x = -(1 / 2) by ring, abs_neg,
      abs_of_nonneg (by norm_num : (0 : ℝ) ≤ 1 / 2)]
  case isFalse h =>
    have h1 : (⌊x + 1 / 2⌋ : ℝ) ≤ x + 1 / 2 := Int.floor_le _
    have h2 : x + 1 / 2 < ⌊x + 1 / 2⌋ + 1 := Int.lt_floor_add_one _
    rw [abs_le]
    constructor <;> linarith

/-- Rounding to three decimal places moves a real by at most `1/2000`. -/
lemma round3_sub_abs_le (x : ℝ) : |round3 x - x| ≤ 1 / 2000 := by
  unfold round3
  have h := pyRound_sub_abs_le (x * 1000)
  rw [show (pyRound (x * 1000) : ℝ) / 1000 - x = ((pyRound (x * 1000) : ℝ) - x * 1000) / 1000
    by ring, abs_div, show |(1000 : ℝ)| = 1000 by norm_num]
  linarith

/-- Rounding the real zero to the nearest integer gives zero. -/
lemma pyRound_zero : pyRound 0 = 0 := by
  have hfloor : ⌊(0 : ℝ) + 1 / 2⌋ = 0 := by
    rw [Int.floor_eq_zero_iff]
    simp only [Set.mem_Ico]
    norm_num
  have hcond : ¬((0 : ℝ) + 1 / 2 = (⌊(0 : ℝ) + 1 / 2⌋ : ℝ) ∧ Odd ⌊(0 : ℝ) + 1 / 2⌋) := by
    rw [hfloor]
    intro hc
    obtain ⟨heq, -⟩ := hc
    norm_num at heq
  unfold pyRound
  rw [if_neg hcond, hfloor]

/-- Rounding a real that is already zero gives zero. -/
lemma round3_zero : round3 0 = 0 := by
  unfold round3
  rw [show (0 : ℝ) * 1000 = 0 by ring, pyRound_zero]
  norm_num

/-- C8: for every non-empty error array, each component returned by
`get_confidence_interval` lies within rounding tolerance (`1/2000`, half of
the last retained decimal place) of the corresponding exact value of the
quadruple (mean - 1.65 sigma, mean, mean + 1.65 sigma, p-th empirical
percentile), with sigma the population standard deviation; for the array
`[-1, 0, 1]` the returned mean is exactly 0 and sigma is `sqrt(2/3)`, so the
bounds are within rounding tolerance of `-1.65 * sqrt(2/3)` and
`+1.65 * sqrt(2/3)`. -/
theorem conf_interval_normal_bounds (errs : List ℚ) (p : ℚ) (h : errs ≠ []) :
    |(get_confidence_interval errs p).1 - ((npMean errs : ℝ) - 1.65 * npStd errs)| ≤ 1 / 2000 ∧
    |(get_confidence_interval errs p).2.1 - (npMean errs : ℝ)| ≤ 1 / 2000 ∧
    |(get_confidence_interval errs p).2.2.1 -
      ((npMean errs : ℝ) + 1.65 * npStd errs)| ≤ 1 / 2000 ∧
    |(get_confidence_interval errs p).2.2.2 - (npPercentile errs p : ℝ)| ≤ 1 / 2000 ∧
    (errs = [-1, 0, 1] →
      (get_confidence_interval errs p).2.1 = 0 ∧
      npStd errs = Real.sqrt (2 / 3) ∧
      |(get_confidence_interval errs p).1 + 1.65 * Real.sqrt (2 / 3)| ≤ 1 / 2000 ∧
      |(get_confidence_interval errs p).2.2.1 - 1.65 * Real.sqrt (2 / 3)| ≤ 1 / 2000) := by
  refine ⟨round3_sub_abs_le _, round3_sub_abs_le _, round3_sub_abs_le _, round3_sub_abs_le _,
    fun he => ?_⟩
  subst he
  have hmean : npMean [-1, 0, 1] = 0 := by norm_num [npMean]
  have hstd : npStd [-1, 0, 1] = Real.sqrt (2 / 3) := by
    unfold npStd
    norm_num [npMean]
  have e1 : (get_confidence_interval [-1, 0, 1] p).1 =
      round3 ((npMean [-1, 0, 1] : ℝ) - 1.65 * npStd [-1, 0, 1]) := rfl
  have e2 : (get_confidence_interval [-1, 0, 1] p).2.1 = round3 (npMean [-1, 0, 1] : ℝ) := rfl
  have e3 : (get_confidence_interval [-1, 0, 1] p).2.2.1 =
      round3 ((npMean [-1, 0, 1] : ℝ) + 1.65 * npStd [-1, 0, 1]) := rfl
  refine ⟨?_, hstd, ?_, ?_⟩
  · rw [e2, hmean]
    norm_num [round3_zero]
  · have hb := round3_sub_abs_le ((npMean [-1, 0, 1] : ℝ) - 1.65 * npStd [-1, 0, 1])
    rw [← e1, hmean, hstd] at hb
    simpa using hb
  · have hb := round3_sub_abs_le ((npMean [-1, 0, 1] : ℝ) + 1.65 * npStd [-1, 0, 1])
    rw [← e3, hmean, hstd] at hb
    simpa using hb

/-- Witness for C8 at the error array `[-1, 0, 1]` and `p = 85`. -/
theorem conf_interval_normal_bounds_witness :
    (([-1, 0, 1] : List ℚ) ≠ []) ∧
    ((get_confidence_interval [-1, 0, 1] 85).2.1 = 0 ∧
      npStd [-1, 0, 1] = Real.sqrt (2 / 3) ∧
      |(get_confidence_interval [-1, 0, 1] 85).1 + 1.65 * Real.sqrt (2 / 3)| ≤ 1 / 2000 ∧
      |(get_confidence_interval [-1, 0, 1] 85).2.2.1 - 1.65 * Real.sqrt (2 / 3)| ≤ 1 / 2000) :=
  ⟨by simp, (conf_interval_normal_bounds [-1, 0, 1] 85 (by simp)).2.2.2.2 rfl⟩

/-- C10: for every non-empty error array and every percentile, the four
values returned by `get_confidence_interval` are integer multiples of
`1/1000` (exactly three decimal places) obtained by rounding the exact lower
bound, mean, upper bound and percentile. -/
theorem conf_interval_three_decimals (errs : List ℚ) (p : ℚ) (h : errs ≠ []) :
    ∃ a b c d : ℤ,
      get_confidence_interval errs p =
        ((a : ℝ) / 1000, (b : ℝ) / 1000, (c : ℝ) / 1000, (d : ℝ) / 1000) ∧
      |(a : ℝ) / 1000 - ((npMean errs : ℝ) - 1.65 * npStd errs)| ≤ 1 / 2000 ∧
      |(b : ℝ) / 1000 - (npMean errs : ℝ)| ≤ 1 / 2000 ∧
      |(c : ℝ) / 1000 - ((npMean errs : ℝ) + 1.65 * npStd errs)| ≤ 1 / 2000 ∧
      |(d : ℝ) / 1000 - (npPercentile errs p : ℝ)| ≤ 1 / 2000 :=
  ⟨pyRound (((npMean errs : ℝ) - 1.65 * npStd errs) * 1000),
    pyRound ((npMean errs : ℝ) * 1000),
    pyRound (((npMean errs : ℝ) + 1.65 * npStd errs) * 1000),
    pyRound ((npPercentile errs p : ℝ) * 1000),
    rfl, round3_sub_abs_le _, round3_sub_abs_le _, round3_sub_abs_le _, round3_sub_abs_le _⟩

/-- Witness for C10 at the error array `[-1, 0, 1]` and `p = 85`. -/
theorem conf_interval_three_decimals_witness :
    (([-1, 0, 1] : List ℚ) ≠ []) ∧
    (∃ a b c d : ℤ,
      get_confidence_interval [-1, 0, 1] 85 =
        ((a : ℝ) / 1000, (b : ℝ) / 1000, (c : ℝ) / 1000, (d : ℝ) / 1000) ∧
      |(a : ℝ) / 1000 - ((npMean [-1, 0, 1] : ℝ) - 1.65 * npStd [-1, 0, 1])| ≤ 1 / 2000 ∧
      |(b : ℝ) / 1000 - (npMean [-1, 0, 1] : ℝ)| ≤ 1 / 2000 ∧
      |(c : ℝ) / 1000 - ((npMean [-1, 0, 1] : ℝ) + 1.65 * npStd [-1, 0, 1])| ≤ 1 / 2000 ∧
      |(d : ℝ) / 1000 - (npPercentile [-1, 0, 1] 85 : ℝ)| ≤ 1 / 2000) :=
  ⟨by simp, conf_interval_three_decimals [-1, 0, 1] 85 (by simp)⟩

